/-
  Verification of the mu20 health-engagement app core.

  Shallow embedding of the points-and-state reconciliation logic:
  the supabase service layer (`apiService`), the n8n goal parser
  (`fetchHealthGoalsFromN8n`), the OTP verification (`verifyOtp`),
  and the page handlers (`handleGameEnd`, `handleMetricsSubmit`,
  `handleSaveChanges`, `handleGenerateGoals`, `handleOtpVerification`).

  Remote reads and writes are modelled by explicit state passing; each
  fallible backend call takes a Bool flag saying whether that call fails
  (a failed write leaves the table unchanged, mirroring the store).
  JS strings are modelled through their character lists; JS `parseFloat`
  is modelled on the plain decimal fragment (sign, digits, one dot) it is
  actually applied to here, with NaN rendered as `none`.
-/
import Mathlib

namespace Mu20

/-! ## JS string primitives (structural, kernel-reducible) -/

/-- Whitespace recognised by the JS `trim` calls in this code base. -/
def isJsSpace (c : Char) : Bool :=
  c == ' ' || c == '\t' || c == '\n' || c == '\r'

/-- Split a character list at every occurrence of `sep`, JS
`String.prototype.split` style: `"a;;b"` gives three parts, `""` one. -/
def splitCharList (sep : Char) : List Char → List (List Char)
  | [] => [[]]
  | c :: cs =>
    let r := splitCharList sep cs
    if c == sep then
      [] :: r
    else
      match r with
      | [] => [[c]]
      | h :: t => (c :: h) :: t

/-- JS `s.split(sep)` for a one-character separator. -/
def jsSplit (sep : Char) (s : String) : List String :=
  (splitCharList sep s.toList).map String.mk

/-- JS `s.trim()`: drop leading and trailing whitespace. -/
def jsTrim (s : String) : String :=
  String.mk (((s.toList.dropWhile isJsSpace).reverse.dropWhile isJsSpace).reverse)

/-- Value of a digit string, most significant first. -/
def digitsToNat (ds : List Char) : Nat :=
  ds.foldl (fun n c => 10 * n + (c.toNat - 48)) 0

/-- JS `parseFloat` on the decimal fragment used by the metrics form:
optional leading whitespace, optional sign, digits with at most one dot,
longest numeric prefix; `none` models NaN (no numeric prefix at all).
Exponent/hex/Infinity forms are outside the inputs this code handles. -/
def parseFloat (s : String) : Option Rat :=
  let cs := s.toList.dropWhile isJsSpace
  let sign : Int := match cs with
    | '-' :: _ => -1
    | _ => 1
  let cs1 : List Char := match cs with
    | '-' :: r => r
    | '+' :: r => r
    | r => r
  let intDigits := cs1.takeWhile Char.isDigit
  let afterInt := cs1.dropWhile Char.isDigit
  let fracDigits : List Char := match afterInt with
    | '.' :: r => r.takeWhile Char.isDigit
    | _ => []
  if intDigits.isEmpty && fracDigits.isEmpty then
    none
  else
    some (Rat.divInt
      (sign * Int.ofNat (digitsToNat intDigits * 10 ^ fracDigits.length + digitsToNat fracDigits))
      ((10 : Int) ^ fracDigits.length))

/-! ## Goal webhook parsing (`fetchHealthGoalsFromN8n` in geminiService) -/

/-- A parsed goal draft, before ids are assigned by the store. -/
structure GoalDraft where
  goal : String
  category : String
  difficulty : String
deriving DecidableEq, Repr

def validCategories : List String := ["Diet", "Exercise", "Mental Health", "General"]

def validDifficulties : List String := ["Easy", "Medium", "Hard"]

/-- One line of the webhook body: split on `;`, require exactly three
parts, validate category and difficulty against the fixed lists (on the
raw parts, as the source does), then trim the fields. `none` models the
line being skipped with a console warning. -/
def parseLine (line : String) : Option GoalDraft :=
  match jsSplit ';' line with
  | [goal, category, difficulty] =>
    if validCategories.contains category && validDifficulties.contains difficulty then
      some { goal := jsTrim goal, category := jsTrim category, difficulty := jsTrim difficulty }
    else
      none
  | _ => none

/-- The line list: `text.trim().split(chr(10)).filter(line.length > 0)`. -/
def goalLines (text : String) : List String :=
  (jsSplit '\n' (jsTrim text)).filter (fun l => decide (0 < l.toList.length))

/-- Lines surviving the per-line filter (`.map(...).filter(not null)`). -/
def parsedGoals (text : String) : List GoalDraft :=
  (goalLines text).filterMap parseLine

/-- The body of `fetchHealthGoalsFromN8n`, parametrised by the webhook
response `text` and by whether the HTTP fetch itself failed. Both the
HTTP failure and the zero-goals-survived throw are caught by the
enclosing try/catch, which returns the empty array. -/
def fetchHealthGoalsFromN8n (text : String) (httpFails : Bool) : List GoalDraft :=
  if httpFails then
    []
  else
    let lines := goalLines text
    let goals := lines.filterMap parseLine
    if goals.isEmpty && !lines.isEmpty then
      []
    else
      goals

/-! ## Recommendation store (`apiService.recommendations`) -/

/-- A recommendation as the UI sees it (row joined with its status). -/
structure Recommendation where
  id : Nat
  userId : String
  goal : String
  category : String
  difficulty : String
  isCompleted : Bool
deriving DecidableEq, Repr

/-- A row of the `recommendations` table. -/
structure RecRow where
  id : Nat
  userId : String
  goal : String
  category : String
  difficulty : String
deriving DecidableEq, Repr

/-- A row of the `recommendation_status` table (composite key
`(user_id, recommendation_id)`). -/
structure StatusRow where
  userId : String
  recommendationId : Nat
  isCompleted : Bool
deriving DecidableEq, Repr

/-- The recommendation-related tables. `nextId` models the store's
auto-assigned serial primary key: every existing row id is below it. -/
structure RecDb where
  recs : List RecRow
  statuses : List StatusRow
  nextId : Nat
deriving DecidableEq, Repr

/-- `apiService.recommendations.get`: fetch the user's rows, fetch the
status rows, and join (`statusMap.get(r.id) or false`). A failed rows
read yields the empty list; a failed status read leaves the map empty. -/
def getRecs (db : RecDb) (uid : String) (recsFail statusFail : Bool) : List Recommendation :=
  if recsFail then
    []
  else
    (db.recs.filter (fun r => r.userId == uid)).map (fun r =>
      { id := r.id, userId := r.userId, goal := r.goal, category := r.category,
        difficulty := r.difficulty,
        isCompleted :=
          if statusFail then
            false
          else
            ((db.statuses.filter (fun s => s.userId == uid)).find?
              (fun s => s.recommendationId == r.id)).elim false (fun s => s.isCompleted) })

/-- `apiService.recommendations.create`: delete all the user's rows,
then insert the batch, the store assigning fresh serial ids; returns the
inserted rows with `isCompleted := false`. On delete failure nothing has
changed; on insert failure the delete has already been committed. -/
def createRecommendations (db : RecDb) (uid : String) (newGoals : List GoalDraft)
    (deleteFails insertFails : Bool) : RecDb × List Recommendation × Option String :=
  if deleteFails then
    (db, [], some "delete failed")
  else
    let db1 : RecDb := { db with recs := db.recs.filter (fun r => !(r.userId == uid)) }
    if insertFails then
      (db1, [], some "insert failed")
    else
      let inserted : List RecRow :=
        ((List.range newGoals.length).zip newGoals).map (fun p =>
          { id := db1.nextId + p.1, userId := uid, goal := p.2.goal,
            category := p.2.category, difficulty := p.2.difficulty })
      let db2 : RecDb :=
        { db1 with recs := db1.recs ++ inserted, nextId := db1.nextId + newGoals.length }
      (db2,
        inserted.map (fun r =>
          { id := r.id, userId := r.userId, goal := r.goal, category := r.category,
            difficulty := r.difficulty, isCompleted := false }),
        none)

/-- Upsert of one status row keyed by `(user_id, recommendation_id)`. -/
def upsertStatus (table : List StatusRow) (row : StatusRow) : List StatusRow :=
  if table.any (fun s => s.userId == row.userId && s.recommendationId == row.recommendationId) then
    table.map (fun s =>
      if s.userId == row.userId && s.recommendationId == row.recommendationId then row else s)
  else
    table ++ [row]

/-- `apiService.recommendations.updateStatus`: batched upsert of the
working set's completion flags. -/
def upsertStatuses (table : List StatusRow) (uid : String)
    (recs : List Recommendation) : List StatusRow :=
  recs.foldl (fun t rec => upsertStatus t { userId := uid, recommendationId := rec.id, isCompleted := rec.isCompleted }) table

/-! ## Goal-completion scoring (ProgressPage) -/

/-- The `difficultyPoints` tariff object. The source only ever looks up
the three difficulty literals; any other key is totalised to 0. -/
def difficultyPoints : String → Nat
  | "Easy" => 2
  | "Medium" => 5
  | "Hard" => 8
  | _ => 0

/-- Body of the accrual loop in `handleSaveChanges`: find the re-read
original by id; if it exists, was incomplete, and the working copy is
complete, add the tariff. -/
def earnStep (originalRecs : List Recommendation) (acc : Nat) (rec : Recommendation) : Nat :=
  match originalRecs.find? (fun r => r.id == rec.id) with
  | some originalRec =>
    if !originalRec.isCompleted && rec.isCompleted then
      acc + difficultyPoints rec.difficulty
    else
      acc
  | none => acc

/-- The `pointsEarned` accumulation of `handleSaveChanges`, as written
in the source (a fold over the working set starting from 0). -/
def pointsEarnedLoop (originalRecs workingSet : List Recommendation) : Nat :=
  workingSet.foldl (earnStep originalRecs) 0

/-- Spec wording: a working-set entry flipped to complete when it is
complete now and the persisted entry with the same id was incomplete. -/
def flippedToComplete (persisted : List Recommendation) (rec : Recommendation) : Bool :=
  rec.isCompleted &&
    ((persisted.find? (fun r => r.id == rec.id)).elim false (fun o => !o.isCompleted))

/-- Spec wording of the accrual: the sum of `tariff[difficulty]` over
exactly the working-set entries that flipped incomplete to complete. -/
def specAccrual (persisted workingSet : List Recommendation) : Nat :=
  ((workingSet.filter (flippedToComplete persisted)).map
    (fun r => difficultyPoints r.difficulty)).sum

/-! ## Daily metrics (DiagnosisPage + `apiService.metrics`) -/

/-- One step of the `metricsToSave` reduce in `handleMetricsSubmit`:
keep a field only if its raw value is nonempty after trim and parses. -/
def metricsStep (acc : List (String × Rat)) (kv : String × String) : List (String × Rat) :=
  if jsTrim kv.2 == "" then
    acc
  else
    match parseFloat kv.2 with
    | some v => acc ++ [(kv.1, v)]
    | none => acc

/-- The `metricsToSave` reduce in `handleMetricsSubmit`. -/
def metricsToSave (metrics : List (String × String)) : List (String × Rat) :=
  metrics.foldl metricsStep []

/-- Spec wording of the persisted record: each field mapped through the
parse, with empty and unparseable fields omitted. -/
def specMetricsRecord (metrics : List (String × String)) : List (String × Rat) :=
  metrics.filterMap (fun kv =>
    if jsTrim kv.2 == "" then
      none
    else
      (parseFloat kv.2).map (fun v => (kv.1, v)))

/-! ## OTP verification (`verifyOtp` + `handleOtpVerification`) -/

/-- The fixed development bypass code. -/
def devBypassCode : String := "123456"

/-- The body of `verifyOtp`: the code is valid when it equals the cached
challenge for the email (JS strict equality against a possibly-undefined
lookup) or the bypass code; a valid code deletes the cache entry.
Returns the validity flag and the resulting cache. -/
def verifyOtp (cache : List (String × String)) (email otp : String) :
    Bool × List (String × String) :=
  let storedOtp := (cache.find? (fun p => p.1 == email)).map (fun p => p.2)
  let isValid := some otp == storedOtp || otp == devBypassCode
  (isValid, if isValid then cache.filter (fun p => !(p.1 == email)) else cache)

/-- Session-relevant state of the OTP flow on AuthPage: the OTP cache,
the backend auth session (if any), whether a full login has happened,
and the inline error message. -/
structure OtpFlowState where
  cache : List (String × String)
  backendSession : Option String
  loggedIn : Bool
  error : String
deriving DecidableEq, Repr

/-- The body of `handleOtpVerification`: verify the code; on failure set
the error and sign out of the backend session; on success require a live
session, then load the profile (`profileOk` models whether that read
succeeds) and log in, signing out when the profile load fails. -/
def handleOtpVerification (st : OtpFlowState) (email otp : String)
    (profileOk : Bool) : OtpFlowState :=
  let r := verifyOtp st.cache email otp
  let st1 : OtpFlowState := { st with cache := r.2 }
  if !r.1 then
    { st1 with error := "Invalid OTP.", backendSession := none }
  else
    match st1.backendSession with
    | none => { st1 with error := "Session expired. Please log in again." }
    | some _uid =>
      if profileOk then
        { st1 with loggedIn := true }
      else
        { st1 with error := "Could not retrieve user profile.", backendSession := none }

/-! ## The daily-metrics "submitted today" query (`apiService.metrics.hasSubmittedToday`) -/

/-- A row of the `daily_metrics` table, reduced to the two columns the
gating query filters on. `createdAt` is an absolute timestamp. -/
structure DailyMetricRow where
  userId : String
  createdAt : Nat
deriving DecidableEq, Repr

/-- Response of the head-count select: with `head: true` the client
returns no rows (`data` is null) and puts the exact match count in the
separate `count` field, which the source never reads. -/
structure CountResponse where
  data : Option (List Nat)
  count : Option Nat
  error : Option String
deriving DecidableEq, Repr

/-- The store's evaluation of the query
`select('id', count exact, head true).eq(user_id).gte(created_at, today)`. -/
def runHasSubmittedQuery (table : List DailyMetricRow) (uid : String)
    (todayStart : Nat) : CountResponse :=
  { data := none,
    count := some ((table.filter (fun r => r.userId == uid && todayStart ≤ r.createdAt)).length),
    error := none }

/-- The expression `(supabase.rpc as any).count` reads a `count`
property off the rpc client function; no such property exists, so the
read yields undefined. -/
def rpcCount : Option Nat := none

/-- JS `x > 0` where `x` may be undefined: `undefined > 0` is false. -/
def jsGtZero : Option Nat → Bool
  | some n => decide (0 < n)
  | none => false

/-- The body of `hasSubmittedToday`: run the head-count query, then
return `(data?.length || 0) > 0 || (error ? false : (supabase.rpc as any).count > 0)`. -/
def hasSubmittedToday (table : List DailyMetricRow) (uid : String) (todayStart : Nat) : Bool :=
  let resp := runHasSubmittedQuery table uid todayStart
  decide (0 < (match resp.data with | some rows => rows.length | none => 0))
    || (if resp.error.isSome then false else jsGtZero rpcCount)

/-- Modelled from the spec: true iff a daily-metrics record exists for
the user with creation timestamp within today's UTC day,
`[todayStart, tomorrowStart)`. -/
def specHasSubmittedToday (table : List DailyMetricRow) (uid : String)
    (todayStart tomorrowStart : Nat) : Bool :=
  table.any (fun r => r.userId == uid && todayStart ≤ r.createdAt && r.createdAt < tomorrowStart)

/-! ## Session state and the page handlers -/

/-- The session-visible and store-visible state the handlers touch:
the session points value (`user.points` after `updateUser`), the user's
`user_points` row, the append-only `game_sessions` and `daily_metrics`
tables, the recommendation tables, the UI recommendation list, the
message line, and the two client-side gates. -/
structure AppState where
  sessionPoints : Nat
  ledger : Option Nat
  gameSessions : List (String × Nat)
  dailyMetricsRows : List (List (String × Rat))
  recDb : RecDb
  recommendationsUI : List Recommendation
  message : String
  submittedToday : Bool
  canGenerate : Bool
deriving DecidableEq, Repr

/-- A blank session for a fresh user with a zero ledger row. -/
def initialAppState : AppState :=
  { sessionPoints := 0, ledger := some 0, gameSessions := [], dailyMetricsRows := [],
    recDb := { recs := [], statuses := [], nextId := 0 }, recommendationsUI := [],
    message := "", submittedToday := false, canGenerate := true }

/-- The body of `handleGameEnd`: save the game session (result unread),
add 10 to the session points via `updateUser`, then upsert the ledger
(result unread; a failed upsert leaves the row unchanged). -/
def handleGameEnd (st : AppState) (gameType : String) (score : Nat)
    (saveSessionFails updatePointsFails : Bool) : AppState :=
  let st1 : AppState :=
    if saveSessionFails then st
    else { st with gameSessions := st.gameSessions ++ [(gameType, score)] }
  let newPoints := st1.sessionPoints + 10
  let st2 : AppState := { st1 with sessionPoints := newPoints }
  if updatePointsFails then st2 else { st2 with ledger := some newPoints }

/-- The body of `handleMetricsSubmit`: build the record from the raw
fields, insert it; on insert failure only the error message changes; on
success add 25 to the session points via `updateUser`, then upsert the
ledger (result unread), set the success message and the submitted flag. -/
def handleMetricsSubmit (st : AppState) (metrics : List (String × String))
    (saveFails updatePointsFails : Bool) : AppState :=
  let record := metricsToSave metrics
  if saveFails then
    { st with message := "Error: insert failed" }
  else
    let st1 : AppState := { st with dailyMetricsRows := st.dailyMetricsRows ++ [record] }
    let newPoints := st1.sessionPoints + 25
    let st2 : AppState := { st1 with sessionPoints := newPoints }
    let st3 : AppState := if updatePointsFails then st2 else { st2 with ledger := some newPoints }
    { st3 with message := "Metrics saved successfully! You earned 25 points.",
               submittedToday := true }

/-- The body of `handleSaveChanges`: re-read the persisted set, compute
the accrual with the source's loop, upsert the statuses of the whole
working set; on upsert failure only the error message changes; on
success, when the accrual is positive, upsert the ledger (result unread)
and add the accrual to the session points via `updateUser`. -/
def handleSaveChanges (st : AppState) (uid : String)
    (recommendations : List Recommendation)
    (getRecsFail getStatusFail upsertFails updatePointsFails : Bool) : AppState :=
  let originalRecs := getRecs st.recDb uid getRecsFail getStatusFail
  let pointsEarned := pointsEarnedLoop originalRecs recommendations
  if upsertFails then
    { st with message := "Error saving changes." }
  else
    let st1 : AppState :=
      { st with recDb := { st.recDb with statuses := upsertStatuses st.recDb.statuses uid recommendations } }
    if 0 < pointsEarned then
      let newTotal := st1.sessionPoints + pointsEarned
      let st2 : AppState := if updatePointsFails then st1 else { st1 with ledger := some newTotal }
      { st2 with sessionPoints := newTotal,
                 message := "Changes saved! You earned points!" }
    else
      { st1 with message := "Your progress has been saved." }

/-- The body of `handleGenerateGoals`: refuse when the daily gate is
closed; fetch and parse the webhook response; with zero goals report
failure and write nothing; otherwise replace the recommendation set via
`create`, and on success update the UI list and close the gate. -/
def handleGenerateGoals (st : AppState) (uid : String) (text : String)
    (httpFails deleteFails insertFails : Bool) : AppState :=
  if !st.canGenerate then
    { st with message := "You can only generate new goals once per day." }
  else
    let newGoals := fetchHealthGoalsFromN8n text httpFails
    if newGoals.isEmpty then
      { st with message := "Could not generate new goals from the service. Please try again later." }
    else
      let r := createRecommendations st.recDb uid newGoals deleteFails insertFails
      match r.2.2 with
      | some _ => { st with recDb := r.1, message := "Error saving new goals." }
      | none =>
        { st with recDb := r.1, recommendationsUI := r.2.1, canGenerate := false,
                  message := "New goals have been generated!" }

/-! ## Profile reads (`apiService.user.getPoints`, `apiService.auth.getFullUserProfile`) -/

/-- A row of the `users` table as the profile read returns it. -/
structure UserRow where
  id : String
  firstName : String
  lastName : String
  email : String
deriving DecidableEq, Repr

/-- The body of `getPoints`: the `user_points` read for the user, where
`row = none` means no row came back, `some none` a row with a null
`points` column; any error or missing row or null column yields 0. -/
def getPoints (row : Option (Option Nat)) (readError : Bool) : Nat :=
  if readError then
    0
  else
    match row with
    | none => 0
    | some none => 0
    | some (some p) => p

/-- The body of `getFullUserProfile`: a failed users read returns the
error with no profile; otherwise the health row is taken as-is and the
points value comes from `getPoints`, whose failure is invisible. Result
is `(user with points, health, error)`. -/
def getFullUserProfile (userRead : Except String UserRow) (healthRow : Option String)
    (pointsRow : Option (Option Nat)) (pointsReadError : Bool) :
    Option (UserRow × Nat) × Option String × Option String :=
  match userRead with
  | .error e => (none, none, some e)
  | .ok u => (some (u, getPoints pointsRow pointsReadError), healthRow, none)

/-- Points monotonicity across one handler step: the session value does
not decrease, and the ledger row is either untouched or holds a value at
least the previous session value. -/
def pointsMonotone (before after : AppState) : Prop :=
  before.sessionPoints ≤ after.sessionPoints ∧
    (after.ledger = before.ledger ∨
      ∃ v, after.ledger = some v ∧ before.sessionPoints ≤ v)

/-! ## Helper lemmas -/

/-- One accrual step adds the tariff exactly when the entry flipped. -/
theorem earnStep_eq (orig : List Recommendation) (acc : Nat) (rec : Recommendation) :
    earnStep orig acc rec
      = acc + (if flippedToComplete orig rec then difficultyPoints rec.difficulty else 0) := by
  unfold earnStep flippedToComplete
  cases h : orig.find? (fun r => r.id == rec.id) with
  | none => simp
  | some o =>
    cases ho : o.isCompleted <;> cases hr : rec.isCompleted <;> simp [ho, hr]

/-- The accrual fold, generalised over the accumulator. -/
theorem earn_foldl_eq (orig : List Recommendation) :
    ∀ (ws : List Recommendation) (acc : Nat),
      ws.foldl (earnStep orig) acc = acc + specAccrual orig ws := by
  intro ws
  induction ws with
  | nil =>
    intro acc
    simp [specAccrual]
  | cons r t ih =>
    intro acc
    rw [List.foldl_cons, ih, earnStep_eq]
    by_cases hf : flippedToComplete orig r = true
    · simp [specAccrual, List.filter_cons, hf]
      omega
    · simp [specAccrual, List.filter_cons, hf]

/-- The source's accrual loop computes the spec's tariff sum. -/
theorem pointsEarnedLoop_eq_specAccrual (orig ws : List Recommendation) :
    pointsEarnedLoop orig ws = specAccrual orig ws := by
  unfold pointsEarnedLoop
  rw [earn_foldl_eq]
  omega

/-- The metrics reduce, generalised over the accumulator. -/
theorem metrics_foldl_eq :
    ∀ (l : List (String × String)) (acc : List (String × Rat)),
      l.foldl metricsStep acc = acc ++ specMetricsRecord l := by
  intro l
  induction l with
  | nil =>
    intro acc
    simp [specMetricsRecord]
  | cons kv t ih =>
    intro acc
    rw [List.foldl_cons, ih]
    unfold metricsStep specMetricsRecord
    rw [List.filterMap_cons]
    by_cases he : (jsTrim kv.2 == "") = true
    · simp [he]
    · simp only [he, if_false, Bool.false_eq_true]
      cases hp : parseFloat kv.2 <;> simp [hp]

/-- The source's metrics reduce computes the spec's filtered record. -/
theorem metricsToSave_eq_specMetricsRecord (metrics : List (String × String)) :
    metricsToSave metrics = specMetricsRecord metrics := by
  unfold metricsToSave
  rw [metrics_foldl_eq]
  simp

/-! ## Claim theorems -/

/-- C1 (code bug): `hasSubmittedToday` is supposed to be true iff a
daily-metrics record exists for the user created within today's UTC day,
but the source never reads the query's count — `data` is null under
`head: true` and `(supabase.rpc as any).count` is undefined — so the
function returns false for every table state, including one holding a
record created today, where the specified behavior returns true. -/
theorem hasSubmittedToday_always_false_bug :
    (∀ (table : List DailyMetricRow) (uid : String) (todayStart : Nat),
        hasSubmittedToday table uid todayStart = false)
    ∧ specHasSubmittedToday [{ userId := "u1", createdAt := 1000 }] "u1" 500 2000 = true
    ∧ hasSubmittedToday [{ userId := "u1", createdAt := 1000 }] "u1" 500 = false := by
  refine ⟨?_, by decide, by decide⟩
  intro table uid t
  simp [hasSubmittedToday, runHasSubmittedQuery, rpcCount, jsGtZero]

/-- C2 (counterexample): the claim says the session points value is
updated only after the ledger upsert succeeds, so a failed remote write
leaves it unchanged; but `handleGameEnd` updates the session value
before the upsert, so with the upsert failing the session value still
moves from 0 to 10. -/
theorem points_update_ordering_counterexample :
    (handleGameEnd initialAppState "Clicker" 5 false true).sessionPoints
      ≠ initialAppState.sessionPoints := by
  decide

/-- C2 (amended): on every point-earning path the session points value
advances by the award regardless of the ledger upsert's outcome — game
end and metrics submission update local state before the ledger write,
and the goal save ignores the write's result — so a failed remote points
write leaves the session value already advanced while the ledger row is
unchanged. -/
theorem points_update_unconditional :
    ∀ (st : AppState) (uid g : String) (sc : Nat) (m : List (String × String))
      (ws : List Recommendation) (sf : Bool),
      ((handleGameEnd st g sc sf true).sessionPoints = st.sessionPoints + 10
        ∧ (handleGameEnd st g sc sf true).ledger = st.ledger)
      ∧ ((handleMetricsSubmit st m false true).sessionPoints = st.sessionPoints + 25
        ∧ (handleMetricsSubmit st m false true).ledger = st.ledger)
      ∧ ((handleSaveChanges st uid ws false false false true).sessionPoints
            = st.sessionPoints + pointsEarnedLoop (getRecs st.recDb uid false false) ws
        ∧ (handleSaveChanges st uid ws false false false true).ledger = st.ledger) := by
  intro st uid g sc m ws sf
  refine ⟨⟨?_, ?_⟩, ⟨?_, ?_⟩, ⟨?_, ?_⟩⟩
  · cases sf <;> simp [handleGameEnd]
  · cases sf <;> simp [handleGameEnd]
  · simp [handleMetricsSubmit]
  · simp [handleMetricsSubmit]
  · by_cases hp : 0 < pointsEarnedLoop (getRecs st.recDb uid false false) ws
    · simp [handleSaveChanges, hp]
    · simp [handleSaveChanges, hp]
      omega
  · by_cases hp : 0 < pointsEarnedLoop (getRecs st.recDb uid false false) ws
    · simp [handleSaveChanges, hp]
    · simp [handleSaveChanges, hp]

/-- C3: the accrual of `handleSaveChanges` equals the spec's tariff sum
over exactly the working-set entries that were incomplete in the re-read
persisted set and are complete in the working set (entries already
complete or otherwise unchanged contribute zero), and on a successful
save the session value advances by that sum while the ledger is written
only when the sum is positive. -/
theorem saveChanges_accrual_correct :
    ∀ (orig ws : List Recommendation) (st : AppState) (uid : String) (upf : Bool),
      pointsEarnedLoop orig ws = specAccrual orig ws
      ∧ (handleSaveChanges st uid ws false false false upf).sessionPoints
          = st.sessionPoints + specAccrual (getRecs st.recDb uid false false) ws
      ∧ (handleSaveChanges st uid ws false false false false).ledger
          = (if specAccrual (getRecs st.recDb uid false false) ws = 0 then st.ledger
             else some (st.sessionPoints + specAccrual (getRecs st.recDb uid false false) ws)) := by
  intro orig ws st uid upf
  refine ⟨pointsEarnedLoop_eq_specAccrual orig ws, ?_, ?_⟩
  · by_cases hp : 0 < specAccrual (getRecs st.recDb uid false false) ws
    · cases upf <;> simp [handleSaveChanges, pointsEarnedLoop_eq_specAccrual, hp]
    · cases upf <;> simp [handleSaveChanges, pointsEarnedLoop_eq_specAccrual, hp] <;> omega
  · by_cases hp : 0 < specAccrual (getRecs st.recDb uid false false) ws
    · have h0 : specAccrual (getRecs st.recDb uid false false) ws ≠ 0 := by omega
      simp [handleSaveChanges, pointsEarnedLoop_eq_specAccrual, hp, h0]
    · have h0 : specAccrual (getRecs st.recDb uid false false) ws = 0 := by omega
      simp [handleSaveChanges, pointsEarnedLoop_eq_specAccrual, hp, h0]

/-- C4: when the batched status upsert inside `handleSaveChanges` fails,
the handler only sets the error message — the ledger row, the session
points value and the recommendation tables are all unchanged, even when
the pre-computed accrual was positive. -/
theorem saveChanges_upsert_failure_no_award :
    ∀ (st : AppState) (uid : String) (ws : List Recommendation) (g1 g2 upf : Bool),
      (handleSaveChanges st uid ws g1 g2 true upf).ledger = st.ledger
      ∧ (handleSaveChanges st uid ws g1 g2 true upf).sessionPoints = st.sessionPoints
      ∧ (handleSaveChanges st uid ws g1 g2 true upf).recDb = st.recDb
      ∧ (handleSaveChanges st uid ws g1 g2 true upf).message = "Error saving changes." := by
  intro st uid ws g1 g2 upf
  simp [handleSaveChanges]

/-- C10: `getPoints` returns 0 whenever the read errors, no row exists,
or the points column is null, and `getFullUserProfile` swallows a failed
points read — it reports no error and assembles the profile with 0
points. -/
theorem getPoints_error_indistinguishable :
    ∀ (row : Option (Option Nat)) (b : Bool) (u : UserRow) (h : Option String),
      getPoints row true = 0
      ∧ getPoints none b = 0
      ∧ getPoints (some none) b = 0
      ∧ (getFullUserProfile (Except.ok u) h row true).2.2 = none
      ∧ (getFullUserProfile (Except.ok u) h row true).1 = some (u, 0) := by
  intro row b u h
  refine ⟨rfl, ?_, ?_, rfl, rfl⟩ <;> cases b <;> rfl

/-- C8: the persisted daily-metrics record keeps exactly the raw fields
that are nonempty and parse as decimal numbers, omitting the rest
without failing the submission, and a successful insert awards exactly
25 points; in particular the record for raw fields
heartRate "72", steps "" holds heartRate 72 only, and a user with 0
points ends with 25 in both the session and the ledger. -/
theorem metrics_submit_parse_and_award :
    ∀ (metrics : List (String × String)) (st : AppState) (upf : Bool),
      metricsToSave metrics = specMetricsRecord metrics
      ∧ (handleMetricsSubmit st metrics false upf).dailyMetricsRows
          = st.dailyMetricsRows ++ [specMetricsRecord metrics]
      ∧ (handleMetricsSubmit st metrics false upf).sessionPoints = st.sessionPoints + 25
      ∧ metricsToSave [("heartRate", "72"), ("steps", "")] = [("heartRate", (72 : Rat))]
      ∧ (handleMetricsSubmit initialAppState [("heartRate", "72"), ("steps", "")]
          false false).dailyMetricsRows = [[("heartRate", (72 : Rat))]]
      ∧ (handleMetricsSubmit initialAppState [("heartRate", "72"), ("steps", "")]
          false false).sessionPoints = 25
      ∧ (handleMetricsSubmit initialAppState [("heartRate", "72"), ("steps", "")]
          false false).ledger = some 25 := by
  intro metrics st upf
  refine ⟨metricsToSave_eq_specMetricsRecord metrics, ?_, ?_,
    by decide, by decide, by decide, by decide⟩
  · cases upf <;> simp [handleMetricsSubmit, metricsToSave_eq_specMetricsRecord]
  · cases upf <;> simp [handleMetricsSubmit]

/-- C9: across every embedded operation the points state is monotone —
each of the three earning handlers leaves the session value no smaller
and either leaves the ledger row untouched or writes a value at least
the previous session value, and goal generation touches neither. -/
theorem points_monotone_all_paths :
    ∀ (st : AppState) (uid g text : String) (sc : Nat) (m : List (String × String))
      (ws : List Recommendation) (f1 f2 f3 f4 g1 g2 f5 f6 hf df inf : Bool),
      pointsMonotone st (handleGameEnd st g sc f1 f2)
      ∧ pointsMonotone st (handleMetricsSubmit st m f3 f4)
      ∧ pointsMonotone st (handleSaveChanges st uid ws g1 g2 f5 f6)
      ∧ (handleGenerateGoals st uid text hf df inf).sessionPoints = st.sessionPoints
      ∧ (handleGenerateGoals st uid text hf df inf).ledger = st.ledger := by
  intro st uid g text sc m ws f1 f2 f3 f4 g1 g2 f5 f6 hf df inf
  refine ⟨?_, ?_, ?_, ?_, ?_⟩
  · unfold pointsMonotone
    cases f1 <;> cases f2 <;> simp [handleGameEnd]
  · unfold pointsMonotone
    cases f3 <;> cases f4 <;> simp [handleMetricsSubmit]
  · unfold pointsMonotone
    by_cases hp : 0 < pointsEarnedLoop (getRecs st.recDb uid g1 g2) ws
    · cases f5 <;> cases f6 <;> simp [handleSaveChanges, hp]
    · cases f5 <;> cases f6 <;> simp [handleSaveChanges, hp]
  · cases hcg : st.canGenerate
    · simp [handleGenerateGoals, hcg]
    · simp only [handleGenerateGoals, hcg]
      split
      · rfl
      · split
        · rfl
        · split <;> rfl
  · cases hcg : st.canGenerate
    · simp [handleGenerateGoals, hcg]
    · simp only [handleGenerateGoals, hcg]
      split
      · rfl
      · split
        · rfl
        · split <;> rfl

/-- C7: `verifyOtp` succeeds iff the code equals the cached challenge
for the email or the fixed development bypass code; success deletes the
challenge from the cache, failure leaves the cache unchanged; and on a
failed verification `handleOtpVerification` signs out the backend
session and leaves the session unauthenticated. -/
theorem verifyOtp_correct :
    ∀ (cache : List (String × String)) (email otp : String) (st : OtpFlowState) (pOk : Bool),
      ((verifyOtp cache email otp).1 = true ↔
        ((cache.find? (fun p => p.1 == email)).map (fun p => p.2) = some otp
          ∨ otp = devBypassCode))
      ∧ ((verifyOtp cache email otp).1 = true →
          ∀ p ∈ (verifyOtp cache email otp).2, p.1 ≠ email)
      ∧ ((verifyOtp cache email otp).1 = false → (verifyOtp cache email otp).2 = cache)
      ∧ (st.loggedIn = false → (verifyOtp st.cache email otp).1 = false →
          (handleOtpVerification st email otp pOk).backendSession = none
          ∧ (handleOtpVerification st email otp pOk).loggedIn = false) := by
  intro cache email otp st pOk
  refine ⟨?_, ?_, ?_, ?_⟩
  · constructor
    · intro hv
      simp only [verifyOtp, Bool.or_eq_true, beq_iff_eq] at hv
      rcases hv with h | h
      · exact Or.inl h.symm
      · exact Or.inr h
    · intro hv
      simp only [verifyOtp, Bool.or_eq_true, beq_iff_eq]
      rcases hv with h | h
      · exact Or.inl h.symm
      · exact Or.inr h
  · intro hv p hp
    simp only [verifyOtp] at hv hp
    rw [if_pos] at hp
    · simp only [List.mem_filter, Bool.not_eq_eq_eq_not, Bool.not_true, beq_eq_false_iff_ne,
        ne_eq] at hp
      exact hp.2
    · exact hv
  · intro hv
    simp only [verifyOtp] at hv ⊢
    rw [if_neg]
    simp [hv]
  · intro hl hv
    simp [handleOtpVerification, hv, hl]

/-- C7 witness: a matching code consumes the challenge; a wrong,
non-bypass code leaves the cache intact, terminates the backend session
and leaves the flow unauthenticated. -/
theorem verifyOtp_correct_witness :
    (∀ p ∈ (verifyOtp [("a@b.c", "999")] "a@b.c" "999").2, p.1 ≠ "a@b.c")
    ∧ (verifyOtp [("a@b.c", "999")] "a@b.c" "111").2 = [("a@b.c", "999")]
    ∧ (handleOtpVerification
        { cache := [("a@b.c", "999")], backendSession := some "uid-1",
          loggedIn := false, error := "" } "a@b.c" "111" true).backendSession = none
    ∧ (handleOtpVerification
        { cache := [("a@b.c", "999")], backendSession := some "uid-1",
          loggedIn := false, error := "" } "a@b.c" "111" true).loggedIn = false := by
  obtain ⟨-, h2, -, -⟩ := verifyOtp_correct [("a@b.c", "999")] "a@b.c" "999"
    { cache := [("a@b.c", "999")], backendSession := some "uid-1",
      loggedIn := false, error := "" } true
  obtain ⟨-, -, h3, h4⟩ := verifyOtp_correct [("a@b.c", "999")] "a@b.c" "111"
    { cache := [("a@b.c", "999")], backendSession := some "uid-1",
      loggedIn := false, error := "" } true
  exact ⟨h2 (by decide), h3 (by decide),
    (h4 (by decide) (by decide)).1, (h4 (by decide) (by decide)).2⟩

/-- A line that does not split into exactly three parts is dropped. -/
theorem parseLine_wrong_arity (line : String)
    (h : (jsSplit ';' line).length ≠ 3) : parseLine line = none := by
  unfold parseLine
  split
  · rename_i g c d heq
    rw [heq] at h
    simp at h
  · rfl

/-- A three-part line with an invalid category or difficulty is dropped. -/
theorem parseLine_invalid_enum (line g c d : String)
    (hs : jsSplit ';' line = [g, c, d])
    (hbad : validCategories.contains c = false ∨ validDifficulties.contains d = false) :
    parseLine line = none := by
  unfold parseLine
  rw [hs]
  have hcond : (validCategories.contains c && validDifficulties.contains d) = false := by
    rcases hbad with h | h <;> simp at h <;> simp [h]
  show (if (validCategories.contains c && validDifficulties.contains d) = true then
      some ({ goal := jsTrim g, category := jsTrim c, difficulty := jsTrim d } : GoalDraft)
    else none) = none
  rw [hcond]
  simp

/-- When no line survives the filter the fetch returns the empty list
(either via the zero-goals throw or directly). -/
theorem fetch_empty_when_no_survivors (text : String) (hf : Bool)
    (hp : parsedGoals text = []) : fetchHealthGoalsFromN8n text hf = [] := by
  simp only [parsedGoals] at hp
  cases hf
  · simp [fetchHealthGoalsFromN8n, hp]
  · simp [fetchHealthGoalsFromN8n]

/-- C6: every webhook line that does not have exactly two semicolons,
or whose category or difficulty is outside the fixed enumerations, is
dropped individually (the parse is total, so nothing raises); and when
zero lines survive, the fetch reports failure by returning no goals and
the generation handler performs no recommendation writes, setting the
failure message. -/
theorem goal_line_filtering_and_failure :
    ∀ (line g c d text : String) (st : AppState) (uid : String) (hf df inf : Bool),
      ((jsSplit ';' line).length ≠ 3 → parseLine line = none)
      ∧ (jsSplit ';' line = [g, c, d] →
          validCategories.contains c = false ∨ validDifficulties.contains d = false →
          parseLine line = none)
      ∧ (parsedGoals text = [] → fetchHealthGoalsFromN8n text hf = [])
      ∧ (st.canGenerate = true → parsedGoals text = [] →
          (handleGenerateGoals st uid text hf df inf).recDb = st.recDb
          ∧ (handleGenerateGoals st uid text hf df inf).message
              = "Could not generate new goals from the service. Please try again later.") := by
  intro line g c d text st uid hf df inf
  refine ⟨parseLine_wrong_arity line, parseLine_invalid_enum line g c d,
    fetch_empty_when_no_survivors text hf, ?_⟩
  intro hc hp
  have hfe := fetch_empty_when_no_survivors text hf hp
  simp [handleGenerateGoals, hc, hfe]

/-- C6 witness: the two malformed sample lines are dropped, the batch
made only of them yields no goals, and generation on that batch leaves
the recommendation tables untouched with the failure message. -/
theorem goal_line_filtering_witness :
    parseLine "Do yoga" = none
    ∧ parseLine "Run;BadCategory;Easy" = none
    ∧ fetchHealthGoalsFromN8n "Do yoga\nRun;BadCategory;Easy" false = []
    ∧ (handleGenerateGoals initialAppState "u1" "Do yoga\nRun;BadCategory;Easy"
        false false false).recDb = initialAppState.recDb
    ∧ (handleGenerateGoals initialAppState "u1" "Do yoga\nRun;BadCategory;Easy"
        false false false).message
        = "Could not generate new goals from the service. Please try again later." := by
  obtain ⟨h1, -, h3, h4⟩ := goal_line_filtering_and_failure "Do yoga" "" "" ""
    "Do yoga\nRun;BadCategory;Easy" initialAppState "u1" false false false
  obtain ⟨-, h2, -, -⟩ := goal_line_filtering_and_failure "Run;BadCategory;Easy"
    "Run" "BadCategory" "Easy" "x" initialAppState "u1" false false false
  exact ⟨h1 (by decide), h2 (by decide) (Or.inl (by decide)), h3 (by decide),
    (h4 (by decide) (by decide)).1, (h4 (by decide) (by decide)).2⟩

/-- Delete-then-insert leaves the status table untouched. -/
theorem created_statuses_eq (db : RecDb) (uid : String) (newGoals : List GoalDraft) :
    (createRecommendations db uid newGoals false false).1.statuses = db.statuses := rfl

/-- Every returned recommendation carries a fresh id (at least the
store's next serial) and starts incomplete. -/
theorem created_ret_mem (db : RecDb) (uid : String) (newGoals : List GoalDraft) :
    ∀ r' ∈ (createRecommendations db uid newGoals false false).2.1,
      db.nextId ≤ r'.id ∧ r'.isCompleted = false := by
  intro r' hr'
  simp [createRecommendations] at hr'
  obtain ⟨a, b, hab, heq⟩ := hr'
  subst heq
  simp

/-- Every row in the post-state either survived the delete (and so does
not belong to the user) or is one of the freshly inserted rows. -/
theorem created_db_mem (db : RecDb) (uid : String) (newGoals : List GoalDraft) :
    ∀ r ∈ (createRecommendations db uid newGoals false false).1.recs,
      (r ∈ db.recs ∧ (r.userId == uid) = false) ∨ (db.nextId ≤ r.id ∧ r.userId = uid) := by
  intro r hr
  simp [createRecommendations] at hr
  rcases hr with h | h
  · exact Or.inl ⟨h.1, by simp [h.2]⟩
  · obtain ⟨a, b, hab, heq⟩ := h
    subst heq
    simp

/-- After a replacement, a join against the (unchanged) status table
reports every row of the user incomplete, because every status row keys
an id older than the freshly assigned ones. -/
theorem created_getRecs_incomplete (db : RecDb) (uid : String) (newGoals : List GoalDraft)
    (hstat : ∀ s ∈ db.statuses, s.recommendationId < db.nextId) :
    ∀ rec ∈ getRecs (createRecommendations db uid newGoals false false).1 uid false false,
      rec.isCompleted = false := by
  intro rec hrec
  simp only [getRecs, Bool.false_eq_true, if_false, List.mem_map, List.mem_filter] at hrec
  obtain ⟨r, ⟨hrdb, hruid⟩, heq⟩ := hrec
  have hnone : ((createRecommendations db uid newGoals false false).1.statuses.filter
      (fun s => s.userId == uid)).find? (fun s => s.recommendationId == r.id) = none := by
    rw [created_statuses_eq]
    apply List.find?_eq_none.mpr
    intro s hs
    have hs' : s ∈ db.statuses := (List.mem_filter.mp hs).1
    have hlt := hstat s hs'
    rcases created_db_mem db uid newGoals r hrdb with ⟨_, hne⟩ | ⟨hge, _⟩
    · rw [hruid] at hne
      simp at hne
    · simp only [beq_iff_eq]
      omega
  rw [← heq]
  simp [hnone]

/-- The rows belonging to the user after a replacement are exactly as
many as the inserted batch. -/
theorem created_user_rows_count (db : RecDb) (uid : String) (newGoals : List GoalDraft) :
    ((createRecommendations db uid newGoals false false).1.recs.filter
      (fun r => r.userId == uid)).length = newGoals.length := by
  simp only [createRecommendations, Bool.false_eq_true, if_false]
  rw [List.filter_append]
  have hold : (db.recs.filter (fun r => !(r.userId == uid))).filter
      (fun r => r.userId == uid) = [] := by
    apply List.filter_eq_nil_iff.mpr
    intro a ha
    have := (List.mem_filter.mp ha).2
    simp at this ⊢
    exact this
  have hnew : (((List.range newGoals.length).zip newGoals).map (fun p =>
      ({ id := db.nextId + p.1, userId := uid, goal := p.2.goal,
         category := p.2.category, difficulty := p.2.difficulty } : RecRow))).filter
      (fun r => r.userId == uid)
      = ((List.range newGoals.length).zip newGoals).map (fun p =>
      ({ id := db.nextId + p.1, userId := uid, goal := p.2.goal,
         category := p.2.category, difficulty := p.2.difficulty } : RecRow)) := by
    apply List.filter_eq_self.mpr
    intro a ha
    simp only [List.mem_map] at ha
    obtain ⟨p, hp, heq⟩ := ha
    rw [← heq]
    simp
  rw [hold, hnew]
  simp [List.length_zip]

/-- C5: given a store whose existing recommendation and status rows all
key ids below the next serial, and a nonempty parsed batch, a successful
generate replaces the user's set: no error is reported, every returned
recommendation id is disjoint from every id that existed before, every
returned recommendation starts incomplete, no status row references a
new id (status absent), a fresh join reports every row of the user
incomplete, and the user's rows after are exactly the batch. -/
theorem generate_replaces_recommendation_set :
    ∀ (db : RecDb) (uid : String) (newGoals : List GoalDraft),
      (∀ r ∈ db.recs, r.id < db.nextId) →
      (∀ s ∈ db.statuses, s.recommendationId < db.nextId) →
      newGoals ≠ [] →
      (createRecommendations db uid newGoals false false).2.2 = none
      ∧ (∀ r' ∈ (createRecommendations db uid newGoals false false).2.1,
          ∀ r ∈ db.recs, r'.id ≠ r.id)
      ∧ (∀ r' ∈ (createRecommendations db uid newGoals false false).2.1,
          r'.isCompleted = false)
      ∧ (∀ r' ∈ (createRecommendations db uid newGoals false false).2.1,
          ∀ s ∈ (createRecommendations db uid newGoals false false).1.statuses,
            s.recommendationId ≠ r'.id)
      ∧ (∀ rec ∈ getRecs (createRecommendations db uid newGoals false false).1 uid false false,
          rec.isCompleted = false)
      ∧ ((createRecommendations db uid newGoals false false).1.recs.filter
          (fun r => r.userId == uid)).length = newGoals.length
      ∧ newGoals.length ≠ 0 := by
  intro db uid newGoals hinv hstat hne
  refine ⟨rfl, ?_, ?_, ?_, created_getRecs_incomplete db uid newGoals hstat,
    created_user_rows_count db uid newGoals, ?_⟩
  · intro r' hr' r hr
    have h1 := (created_ret_mem db uid newGoals r' hr').1
    have h2 := hinv r hr
    omega
  · intro r' hr'
    exact (created_ret_mem db uid newGoals r' hr').2
  · intro r' hr' s hs
    rw [created_statuses_eq] at hs
    have h1 := hstat s hs
    have h2 := (created_ret_mem db uid newGoals r' hr').1
    omega
  · intro h0
    exact hne (List.length_eq_zero.mp h0)

/-- A one-row store satisfying the serial-id invariant, with a status
row marking the old recommendation complete. -/
def sampleRecDb : RecDb :=
  { recs := [{ id := 0, userId := "u1", goal := "old goal", category := "Diet",
               difficulty := "Easy" }],
    statuses := [{ userId := "u1", recommendationId := 0, isCompleted := true }],
    nextId := 1 }

/-- A one-goal parsed batch. -/
def sampleGoals : List GoalDraft :=
  [{ goal := "Walk", category := "Exercise", difficulty := "Easy" }]

/-- C5 witness: replacing the sample store's set with the sample batch
reports no error, assigns a fresh id, starts incomplete with no status
row, and leaves exactly one row for the user. -/
theorem generate_replaces_recommendation_set_witness :
    (createRecommendations sampleRecDb "u1" sampleGoals false false).2.2 = none
    ∧ (∀ r' ∈ (createRecommendations sampleRecDb "u1" sampleGoals false false).2.1,
        ∀ r ∈ sampleRecDb.recs, r'.id ≠ r.id)
    ∧ (∀ r' ∈ (createRecommendations sampleRecDb "u1" sampleGoals false false).2.1,
        r'.isCompleted = false)
    ∧ (∀ r' ∈ (createRecommendations sampleRecDb "u1" sampleGoals false false).2.1,
        ∀ s ∈ (createRecommendations sampleRecDb "u1" sampleGoals false false).1.statuses,
          s.recommendationId ≠ r'.id)
    ∧ (∀ rec ∈ getRecs (createRecommendations sampleRecDb "u1" sampleGoals false false).1
        "u1" false false, rec.isCompleted = false)
    ∧ ((createRecommendations sampleRecDb "u1" sampleGoals false false).1.recs.filter
        (fun r => r.userId == "u1")).length = sampleGoals.length
    ∧ sampleGoals.length ≠ 0 :=
  generate_replaces_recommendation_set sampleRecDb "u1" sampleGoals
    (by decide) (by decide) (by decide)

end Mu20
